import Mathlib

/-!
Verification of the generated `Persistent` capability binding
(`capnp/persistent.capnp.h`, Cap'n Proto generated code).

The development shallowly embeds two layers:

* the wire-level struct model (data words + pointer slots with
  bounds-checked, defaulting reads) — the runtime layout code is not part
  of the repository snapshot, so those pieces are modelled from the spec;
* the generated accessors, dispatch functions and client request builder,
  transcribed from the generated header itself.
-/

namespace Capnp

/-- A pointer slot of a struct's pointer section.  `none` is the encoded
null pointer; `some v` is an encoded non-null pointer whose referent is
abstracted as the value `v` (the core transports generic pointers without
interpreting their contents). -/
abbrev PointerSlot := Option Nat

/-- Modelled from the spec: `PointerReader::isNull` — a pointer slot is
null iff it holds the null encoding. -/
def isNull (p : PointerSlot) : Bool :=
  p.isNone

/-- Modelled from the spec: a read-only view of one encoded struct — a
fixed-size data section (64-bit words) and a pointer section.  The
struct-layout runtime (`layout.h`) is not part of the repository snapshot. -/
structure StructReader where
  dataWords : List Nat
  pointers : List PointerSlot
deriving DecidableEq

/-- Modelled from the spec: `StructReader::getPointerField` with graceful
defaulting — an index beyond the stored pointer section yields the null
(default) pointer instead of faulting; the function is total, so no read
ever touches memory outside the stored struct. -/
def StructReader.getPointerField (r : StructReader) (ptrIndex : Nat) : PointerSlot :=
  r.pointers.getD ptrIndex none

/-- Modelled from the spec: a mutable view of one encoded struct under
construction; builders are always allocated at the schema-declared size. -/
structure StructBuilder where
  dataWords : List Nat
  pointers : List PointerSlot
deriving DecidableEq

/-- Modelled from the spec: `StructBuilder::asReader` — an immutable view
of the same bytes, not a copy. -/
def StructBuilder.asReader (b : StructBuilder) : StructReader :=
  ⟨b.dataWords, b.pointers⟩

/-- Modelled from the spec: reading a pointer slot of a builder. -/
def StructBuilder.getPointerField (b : StructBuilder) (ptrIndex : Nat) : PointerSlot :=
  b.pointers.getD ptrIndex none

/-- Modelled from the spec: overwriting a pointer slot of a builder
(`PointerBuilder` writes through `getPointerField`). -/
def StructBuilder.setPointerField (b : StructBuilder) (ptrIndex : Nat) (v : PointerSlot) :
    StructBuilder :=
  { b with pointers := b.pointers.set ptrIndex v }

/-- A generic-parameter binding ("brand"): the concrete types substituted
for the schema parameters `SturdyRef` and `Owner`.  In the generated C++
this is a pair of template arguments; here it is explicit data so that
rebinding can be stated. -/
structure Brand where
  sturdyRef : String
  owner : String
deriving DecidableEq

/-- Modelled from the spec: a typeless pipeline — a promise for a struct,
addressed by the path of pointer-field indices taken from the eventual
results root. -/
structure AnyPointerPipeline where
  ops : List Nat
deriving DecidableEq

/-- Modelled from the spec: `AnyPointer::Pipeline::getPointerField` —
extends the pending path by one pointer-field index. -/
def AnyPointerPipeline.getPointerField (p : AnyPointerPipeline) (ptrIndex : Nat) :
    AnyPointerPipeline :=
  ⟨p.ops ++ [ptrIndex]⟩

/-- The 64-bit interface ID of `Persistent`
(`CAPNP_DECLARE_SCHEMA(c8cb212fcd9f5691)` / `CAPNP_DECLARE_INTERFACE_HEADER`). -/
def persistentInterfaceId : Nat := 0xc8cb212fcd9f5691

namespace Persistent

namespace SaveParams

/-- Declared data-section size of `SaveParams` in words, from
`CAPNP_DECLARE_STRUCT_HEADER(f76fba59183073a5, 0, 1)`. -/
def dataWordCount : Nat := 0

/-- Declared pointer-section size of `SaveParams`, from
`CAPNP_DECLARE_STRUCT_HEADER(f76fba59183073a5, 0, 1)`. -/
def pointerCount : Nat := 1

/-- The pointer-slot index used by every `sealFor` accessor:
`bounded<0>() * POINTERS` in the generated code. -/
def sealForPointerIndex : Nat := 0

/-- `Persistent<SturdyRef, Owner>::SaveParams::Reader`: wraps a
`StructReader`; the brand is the template-argument binding, carried here
as explicit data. -/
structure Reader where
  brand : Brand
  reader : StructReader
deriving DecidableEq

/-- `Reader::asPersistentGeneric<SturdyRef2, Owner2>()` — constructs a
reader of the new binding from the same underlying `StructReader`. -/
def Reader.asPersistentGeneric (r : Reader) (sturdyRef2 owner2 : String) : Reader :=
  ⟨⟨sturdyRef2, owner2⟩, r.reader⟩

/-- `Reader::hasSealFor()`: negation of `isNull` on pointer slot 0. -/
def Reader.hasSealFor (r : Reader) : Bool :=
  !(isNull (r.reader.getPointerField sealForPointerIndex))

/-- `Reader::getSealFor()`: `PointerHelpers<Owner>::get` on pointer
slot 0; for a generic (`AnyPointer`) field the value read is the slot's
referent, with the null slot decoding to the default. -/
def Reader.getSealFor (r : Reader) : PointerSlot :=
  r.reader.getPointerField sealForPointerIndex

/-- `Persistent<SturdyRef, Owner>::SaveParams::Builder`. -/
structure Builder where
  brand : Brand
  builder : StructBuilder
deriving DecidableEq

/-- `Builder::asPersistentGeneric<SturdyRef2, Owner2>()`. -/
def Builder.asPersistentGeneric (b : Builder) (sturdyRef2 owner2 : String) : Builder :=
  ⟨⟨sturdyRef2, owner2⟩, b.builder⟩

/-- `Builder::asReader()` — an immutable view of the same bytes. -/
def Builder.asReader (b : Builder) : Reader :=
  ⟨b.brand, b.builder.asReader⟩

/-- `Builder::hasSealFor()`. -/
def Builder.hasSealFor (b : Builder) : Bool :=
  !(isNull (b.builder.getPointerField sealForPointerIndex))

/-- `Builder::getSealFor()`. -/
def Builder.getSealFor (b : Builder) : PointerSlot :=
  b.builder.getPointerField sealForPointerIndex

/-- `Builder::setSealFor(value)`: `PointerHelpers<Owner>::set` writes the
given value into pointer slot 0 (a null reader stores the null pointer). -/
def Builder.setSealFor (b : Builder) (value : PointerSlot) : Builder :=
  { b with builder := b.builder.setPointerField sealForPointerIndex value }

/-- `Builder::initSealFor()`: `PointerHelpers<Owner>::init` allocates a
fresh zero-valued instance (abstracted as referent `0`) into slot 0,
orphaning any previous value. -/
def Builder.initSealFor (b : Builder) : Builder :=
  { b with builder := b.builder.setPointerField sealForPointerIndex (some 0) }

/-- `Builder::adoptSealFor(orphan)`: `PointerHelpers<Owner>::adopt` moves
an orphaned value into slot 0 without copying its bytes. -/
def Builder.adoptSealFor (b : Builder) (value : PointerSlot) : Builder :=
  { b with builder := b.builder.setPointerField sealForPointerIndex value }

/-- `Builder::disownSealFor()`: `PointerHelpers<Owner>::disown` detaches
slot 0's value as an orphan, leaving the slot null; returned as
(orphan, updated builder) since the C++ mutates in place. -/
def Builder.disownSealFor (b : Builder) : PointerSlot × Builder :=
  (b.builder.getPointerField sealForPointerIndex,
   { b with builder := b.builder.setPointerField sealForPointerIndex none })

/-- A freshly allocated `SaveParams` struct: both sections zero-filled at
the declared sizes (0 data words, 1 null pointer). -/
def newBuilder (brand : Brand) : Builder :=
  ⟨brand, ⟨List.replicate dataWordCount 0, List.replicate pointerCount none⟩⟩

/-- `Persistent<SturdyRef, Owner>::SaveParams::Pipeline`. -/
structure Pipeline where
  brand : Brand
  typeless : AnyPointerPipeline
deriving DecidableEq

/-- `Pipeline::getSealFor()`: `_typeless.getPointerField(0)`. -/
def Pipeline.getSealFor (p : Pipeline) : AnyPointerPipeline :=
  p.typeless.getPointerField sealForPointerIndex

end SaveParams

namespace SaveResults

/-- Declared data-section size of `SaveResults` in words, from
`CAPNP_DECLARE_STRUCT_HEADER(b76848c18c40efbf, 0, 1)`. -/
def dataWordCount : Nat := 0

/-- Declared pointer-section size of `SaveResults`, from
`CAPNP_DECLARE_STRUCT_HEADER(b76848c18c40efbf, 0, 1)`. -/
def pointerCount : Nat := 1

/-- The pointer-slot index used by every `sturdyRef` accessor:
`bounded<0>() * POINTERS` in the generated code. -/
def sturdyRefPointerIndex : Nat := 0

/-- `Persistent<SturdyRef, Owner>::SaveResults::Reader`. -/
structure Reader where
  brand : Brand
  reader : StructReader
deriving DecidableEq

/-- `Reader::asPersistentGeneric<SturdyRef2, Owner2>()`. -/
def Reader.asPersistentGeneric (r : Reader) (sturdyRef2 owner2 : String) : Reader :=
  ⟨⟨sturdyRef2, owner2⟩, r.reader⟩

/-- `Reader::hasSturdyRef()`. -/
def Reader.hasSturdyRef (r : Reader) : Bool :=
  !(isNull (r.reader.getPointerField sturdyRefPointerIndex))

/-- `Reader::getSturdyRef()`: `PointerHelpers<SturdyRef>::get` on pointer
slot 0. -/
def Reader.getSturdyRef (r : Reader) : PointerSlot :=
  r.reader.getPointerField sturdyRefPointerIndex

/-- `Persistent<SturdyRef, Owner>::SaveResults::Builder`. -/
structure Builder where
  brand : Brand
  builder : StructBuilder
deriving DecidableEq

/-- `Builder::asPersistentGeneric<SturdyRef2, Owner2>()`. -/
def Builder.asPersistentGeneric (b : Builder) (sturdyRef2 owner2 : String) : Builder :=
  ⟨⟨sturdyRef2, owner2⟩, b.builder⟩

/-- `Builder::asReader()`. -/
def Builder.asReader (b : Builder) : Reader :=
  ⟨b.brand, b.builder.asReader⟩

/-- `Builder::hasSturdyRef()`. -/
def Builder.hasSturdyRef (b : Builder) : Bool :=
  !(isNull (b.builder.getPointerField sturdyRefPointerIndex))

/-- `Builder::getSturdyRef()`. -/
def Builder.getSturdyRef (b : Builder) : PointerSlot :=
  b.builder.getPointerField sturdyRefPointerIndex

/-- `Builder::setSturdyRef(value)`. -/
def Builder.setSturdyRef (b : Builder) (value : PointerSlot) : Builder :=
  { b with builder := b.builder.setPointerField sturdyRefPointerIndex value }

/-- `Builder::initSturdyRef()`. -/
def Builder.initSturdyRef (b : Builder) : Builder :=
  { b with builder := b.builder.setPointerField sturdyRefPointerIndex (some 0) }

/-- `Builder::adoptSturdyRef(orphan)`. -/
def Builder.adoptSturdyRef (b : Builder) (value : PointerSlot) : Builder :=
  { b with builder := b.builder.setPointerField sturdyRefPointerIndex value }

/-- `Builder::disownSturdyRef()`. -/
def Builder.disownSturdyRef (b : Builder) : PointerSlot × Builder :=
  (b.builder.getPointerField sturdyRefPointerIndex,
   { b with builder := b.builder.setPointerField sturdyRefPointerIndex none })

/-- A freshly allocated `SaveResults` struct (0 data words, 1 null
pointer). -/
def newBuilder (brand : Brand) : Builder :=
  ⟨brand, ⟨List.replicate dataWordCount 0, List.replicate pointerCount none⟩⟩

/-- `Persistent<SturdyRef, Owner>::SaveResults::Pipeline`. -/
structure Pipeline where
  brand : Brand
  typeless : AnyPointerPipeline
deriving DecidableEq

/-- `Pipeline::getSturdyRef()`: `_typeless.getPointerField(0)`. -/
def Pipeline.getSturdyRef (p : Pipeline) : AnyPointerPipeline :=
  p.typeless.getPointerField sturdyRefPointerIndex

end SaveResults

end Persistent

/-- A call context: pairs a reader over the request's parameter struct
with a builder for the not-yet-filled results struct. -/
structure CallContext where
  params : StructReader
  results : StructBuilder
deriving DecidableEq

/-- Modelled from the spec: the three diagnostic payloads carried by the
`internalUnimplemented` overloads of `Capability::Server` (the capability
runtime is not part of the repository snapshot): an unrecognised
interface ID; a recognised interface with an unrecognised method ID; and
a non-overridden default method body. -/
inductive RpcError where
  | unimplementedInterface (interfaceName : String) (interfaceId : Nat)
  | unimplementedMethod (interfaceName : String) (interfaceId : Nat) (methodId : Nat)
  | unimplementedMethodBody (interfaceName : String) (methodName : String)
      (interfaceId : Nat) (methodId : Nat)
deriving DecidableEq

/-- Modelled from the spec: the completion signal of an asynchronous
call — it either completes, fails with a dispatch diagnostic, or fails
with an application-defined error; never a crash. -/
inductive Promise where
  | fulfilled
  | failed (e : RpcError)
  | appError (description : String)
deriving DecidableEq

/-- `Capability::Server::DispatchCallResult`: the promise for the call's
completion plus the streaming and cancellation flags (shape visible in
the generated `{ save(...), false, false }` initializer). -/
structure DispatchCallResult where
  promise : Promise
  isStreaming : Bool
  allowCancellation : Bool
deriving DecidableEq

/-- Modelled from the spec: the `internalUnimplemented(interfaceName,
typeId)` overload — a locally generated `UnimplementedInterface` failure
carrying the interface name and requested ID for diagnostics.  The two
boolean flags of the result are not determined by the spec and no claim
depends on them. -/
def internalUnimplementedInterface (interfaceName : String) (typeId : Nat) :
    DispatchCallResult :=
  ⟨.failed (.unimplementedInterface interfaceName typeId), false, true⟩

/-- Modelled from the spec: the `internalUnimplemented(interfaceName,
typeId, methodId)` overload — a locally generated `UnimplementedMethod`
failure. -/
def internalUnimplementedMethod (interfaceName : String) (typeId methodId : Nat) :
    DispatchCallResult :=
  ⟨.failed (.unimplementedMethod interfaceName typeId methodId), false, true⟩

/-- Modelled from the spec: the `internalUnimplemented(interfaceName,
methodName, typeId, methodId)` overload used by default method bodies —
a well-formed `UnimplementedMethod` failure returned as the method's
promise, rather than a crash. -/
def internalUnimplementedMethodBody (interfaceName methodName : String)
    (typeId methodId : Nat) : Promise :=
  .failed (.unimplementedMethodBody interfaceName methodName typeId methodId)

/-- Modelled from the spec: `internalGetTypedContext` reinterprets the
untyped call context with typed accessors; the underlying context is
unchanged. -/
def internalGetTypedContext (context : CallContext) : CallContext :=
  context

namespace Persistent

/-- `Persistent<SturdyRef, Owner>::Server`: the (possibly overridden)
virtual `save` handler, the only method of the interface. -/
structure Server where
  save : CallContext → Promise

/-- The non-overridden `Server::save` body (generated code):
`internalUnimplemented("capnp/persistent.capnp:Persistent", "save",
0xc8cb212fcd9f5691ull, 0)`. -/
def Server.defaultSave : CallContext → Promise :=
  fun _ =>
    internalUnimplementedMethodBody "capnp/persistent.capnp:Persistent" "save"
      0xc8cb212fcd9f5691 0

/-- `Server::dispatchCallInternal(methodId, context)` (generated code):
method 0 invokes `save` on the typed context with both flags false; any
other method ID is unimplemented. -/
def Server.dispatchCallInternal (s : Server) (methodId : Nat) (context : CallContext) :
    DispatchCallResult :=
  match methodId with
  | 0 => ⟨s.save (internalGetTypedContext context), false, false⟩
  | _ =>
    internalUnimplementedMethod "capnp/persistent.capnp:Persistent"
      0xc8cb212fcd9f5691 methodId

/-- `Server::dispatchCall(interfaceId, methodId, context)` (generated
code): the registered interface ID delegates to `dispatchCallInternal`;
any other ID is an unimplemented interface. -/
def Server.dispatchCall (s : Server) (interfaceId methodId : Nat)
    (context : CallContext) : DispatchCallResult :=
  if interfaceId = 0xc8cb212fcd9f5691 then
    s.dispatchCallInternal methodId context
  else
    internalUnimplementedInterface "capnp/persistent.capnp:Persistent" interfaceId

/-- A typed request produced by `Capability::Client::newCall`: the
wire-level dispatch keys plus the size hint and the brace-initialized
hints argument of the generated call. -/
structure Request where
  interfaceId : Nat
  methodId : Nat
  sizeHint : Option Nat
  noPromisePipelining : Bool
deriving DecidableEq

/-- Modelled from the spec: `newCall<Params, Results>` records the
interface and method IDs the request will be dispatched with (the
capability runtime is not part of the repository snapshot). -/
def newCall (interfaceId methodId : Nat) (sizeHint : Option Nat)
    (noPromisePipelining : Bool) : Request :=
  ⟨interfaceId, methodId, sizeHint, noPromisePipelining⟩

/-- `Client::saveRequest(sizeHint)` (generated code):
`newCall<SaveParams, SaveResults>(0xc8cb212fcd9f5691ull, 0, sizeHint,
braced-hints-false)`. -/
def Client.saveRequest (sizeHint : Option Nat) : Request :=
  newCall 0xc8cb212fcd9f5691 0 sizeHint false

end Persistent

/-! Helper lemmas about the wire model. -/

/-- Reading a pointer slot at or beyond the stored pointer section yields
the null default. -/
theorem StructReader.getPointerField_past_bound (r : StructReader) (i : Nat)
    (h : r.pointers.length ≤ i) : r.getPointerField i = none := by
  simp [StructReader.getPointerField, List.getD, List.getElem?_eq_none h]

/-- Writing a pointer slot in range and reading it back yields the
written value. -/
theorem StructBuilder.getPointerField_set_self (b : StructBuilder) (i : Nat)
    (v : PointerSlot) (h : i < b.pointers.length) :
    (b.setPointerField i v).getPointerField i = v := by
  simp [StructBuilder.getPointerField, StructBuilder.setPointerField, List.getD,
    List.getElem?_set_self, h]

/-- Writing a pointer slot does not change any other slot. -/
theorem StructBuilder.getPointerField_set_ne (b : StructBuilder) (i j : Nat)
    (v : PointerSlot) (h : i ≠ j) :
    (b.setPointerField i v).getPointerField j = b.getPointerField j := by
  simp [StructBuilder.getPointerField, StructBuilder.setPointerField, List.getD,
    List.getElem?_set_ne h]

/-- The reader view of a builder reads the same pointer slots. -/
theorem StructBuilder.asReader_getPointerField (b : StructBuilder) (i : Nat) :
    b.asReader.getPointerField i = b.getPointerField i := rfl

/-- Writing a pointer slot preserves the pointer-section length. -/
theorem StructBuilder.length_pointers_set (b : StructBuilder) (i : Nat) (v : PointerSlot) :
    (b.setPointerField i v).pointers.length = b.pointers.length := by
  simp [StructBuilder.setPointerField]

/-! Claim theorems. -/

/-- C1: `Server::dispatchCall` with the registered interface ID
`0xc8cb212fcd9f5691` and method ID 0 invokes exactly the `save` handler;
with any other interface ID it fails with the `UnimplementedInterface`
diagnostic; with the registered interface ID but a non-zero method ID it
fails with the `UnimplementedMethod` diagnostic. -/
theorem c1_dispatchCall_routing (s : Persistent.Server) (context : CallContext)
    (interfaceId methodId : Nat) :
    (interfaceId = persistentInterfaceId → methodId = 0 →
      s.dispatchCall interfaceId methodId context = ⟨s.save context, false, false⟩)
    ∧ (interfaceId ≠ persistentInterfaceId →
      s.dispatchCall interfaceId methodId context
        = internalUnimplementedInterface "capnp/persistent.capnp:Persistent" interfaceId)
    ∧ (interfaceId = persistentInterfaceId → methodId ≠ 0 →
      s.dispatchCall interfaceId methodId context
        = internalUnimplementedMethod "capnp/persistent.capnp:Persistent"
            persistentInterfaceId methodId) := by
  refine ⟨?_, ?_, ?_⟩
  · intro hi hm
    subst hi; subst hm
    simp [Persistent.Server.dispatchCall, Persistent.Server.dispatchCallInternal,
      internalGetTypedContext, persistentInterfaceId]
  · intro hi
    simp only [persistentInterfaceId] at hi
    simp [Persistent.Server.dispatchCall, hi]
  · intro hi hm
    subst hi
    cases methodId with
    | zero => exact absurd rfl hm
    | succ n =>
      simp [Persistent.Server.dispatchCall, Persistent.Server.dispatchCallInternal,
        persistentInterfaceId]

/-- Witness for C1 at concrete inputs. -/
theorem c1_dispatchCall_routing_witness :
    (Persistent.Server.mk fun _ => Promise.fulfilled).dispatchCall persistentInterfaceId 0
        ⟨⟨[], []⟩, ⟨[], []⟩⟩ = ⟨Promise.fulfilled, false, false⟩
    ∧ (7 : Nat) ≠ persistentInterfaceId
    ∧ (Persistent.Server.mk fun _ => Promise.fulfilled).dispatchCall 7 0 ⟨⟨[], []⟩, ⟨[], []⟩⟩
        = internalUnimplementedInterface "capnp/persistent.capnp:Persistent" 7
    ∧ (3 : Nat) ≠ 0
    ∧ (Persistent.Server.mk fun _ => Promise.fulfilled).dispatchCall persistentInterfaceId 3
        ⟨⟨[], []⟩, ⟨[], []⟩⟩
        = internalUnimplementedMethod "capnp/persistent.capnp:Persistent"
            persistentInterfaceId 3 := by
  refine ⟨(c1_dispatchCall_routing _ _ _ _).1 rfl rfl, by decide,
    (c1_dispatchCall_routing _ _ _ _).2.1 (by decide), by decide,
    (c1_dispatchCall_routing _ _ _ _).2.2 rfl (by decide)⟩

/-- C2: the non-overridden `Server::save` body returns, for every call
context, a well-formed unimplemented-method failure carrying the
interface name, the interface ID `0xc8cb212fcd9f5691` and method
ordinal 0 — it is a total function producing a failure value, not a
crash. -/
theorem c2_default_save_unimplemented (context : CallContext) :
    Persistent.Server.defaultSave context
      = Promise.failed (.unimplementedMethodBody "capnp/persistent.capnp:Persistent"
          "save" persistentInterfaceId 0)
    ∧ persistentInterfaceId = 0xc8cb212fcd9f5691 :=
  ⟨rfl, rfl⟩

/-- C3: a struct stored with K pointer words, read at any pointer index
at or beyond K, yields the null default rather than faulting (the read is
a total function); in particular `getSealFor` on a `SaveParams` stored
with zero pointer words returns the default and `hasSealFor` is false. -/
theorem c3_truncation_returns_default :
    (∀ (r : StructReader) (k : Nat), r.pointers.length ≤ k → r.getPointerField k = none)
    ∧ (∀ r : Persistent.SaveParams.Reader, r.reader.pointers = [] →
        r.getSealFor = none ∧ r.hasSealFor = false) := by
  refine ⟨fun r k h => r.getPointerField_past_bound k h, fun r h => ?_⟩
  have hg : r.getSealFor = none := by
    simp [Persistent.SaveParams.Reader.getSealFor, StructReader.getPointerField, h]
  refine ⟨hg, ?_⟩
  simp [Persistent.SaveParams.Reader.hasSealFor, isNull,
    Persistent.SaveParams.Reader.getSealFor] at hg ⊢
  simp [StructReader.getPointerField, h]

/-- Witness for C3 at concrete inputs. -/
theorem c3_truncation_returns_default_witness :
    (StructReader.mk [] []).pointers.length ≤ 0
    ∧ (StructReader.mk [] []).getPointerField 0 = none
    ∧ (Persistent.SaveParams.Reader.mk ⟨"SR", "OW"⟩ ⟨[], []⟩).getSealFor = none
    ∧ (Persistent.SaveParams.Reader.mk ⟨"SR", "OW"⟩ ⟨[], []⟩).hasSealFor = false := by
  refine ⟨by decide, c3_truncation_returns_default.1 ⟨[], []⟩ 0 (by decide),
    (c3_truncation_returns_default.2 _ rfl).1,
    (c3_truncation_returns_default.2 _ rfl).2⟩

/-- C4: writing a value into the `sturdyRef` field through the builder
and reading it back through the corresponding reader returns exactly the
written value. -/
theorem c4_set_get_roundtrip (b : Persistent.SaveResults.Builder) (v : PointerSlot)
    (h : Persistent.SaveResults.sturdyRefPointerIndex < b.builder.pointers.length) :
    ((b.setSturdyRef v).asReader).getSturdyRef = v := by
  simp only [Persistent.SaveResults.Builder.setSturdyRef,
    Persistent.SaveResults.Builder.asReader, Persistent.SaveResults.Reader.getSturdyRef,
    StructBuilder.asReader_getPointerField]
  exact b.builder.getPointerField_set_self _ v h

/-- Witness for C4 at a concrete input. -/
theorem c4_set_get_roundtrip_witness :
    Persistent.SaveResults.sturdyRefPointerIndex
        < (Persistent.SaveResults.newBuilder ⟨"SR", "OW"⟩).builder.pointers.length
    ∧ (((Persistent.SaveResults.newBuilder ⟨"SR", "OW"⟩).setSturdyRef
          (some 7)).asReader).getSturdyRef = some 7 :=
  ⟨by decide, c4_set_get_roundtrip _ _ (by decide)⟩

/-- C5: the has-accessors are true exactly when pointer slot 0 is
non-null; they are false on a freshly allocated struct and true after the
field is set to a non-null value or initialized. -/
theorem c5_has_iff_nonnull :
    (∀ r : Persistent.SaveParams.Reader,
      (r.hasSealFor = true
        ↔ r.reader.getPointerField Persistent.SaveParams.sealForPointerIndex ≠ none))
    ∧ (∀ r : Persistent.SaveResults.Reader,
      (r.hasSturdyRef = true
        ↔ r.reader.getPointerField Persistent.SaveResults.sturdyRefPointerIndex ≠ none))
    ∧ (∀ brand : Brand,
      (Persistent.SaveParams.newBuilder brand).hasSealFor = false
      ∧ (Persistent.SaveResults.newBuilder brand).hasSturdyRef = false)
    ∧ (∀ (b : Persistent.SaveParams.Builder) (v : Nat),
      0 < b.builder.pointers.length →
      (b.setSealFor (some v)).hasSealFor = true ∧ (b.initSealFor).hasSealFor = true)
    ∧ (∀ (b : Persistent.SaveResults.Builder) (v : Nat),
      0 < b.builder.pointers.length →
      (b.setSturdyRef (some v)).hasSturdyRef = true
      ∧ (b.initSturdyRef).hasSturdyRef = true) := by
  refine ⟨fun r => ?_, fun r => ?_, fun brand => ⟨rfl, rfl⟩, fun b v h => ?_, fun b v h => ?_⟩
  · cases hp : r.reader.getPointerField Persistent.SaveParams.sealForPointerIndex <;>
      simp [Persistent.SaveParams.Reader.hasSealFor, isNull, hp]
  · cases hp : r.reader.getPointerField Persistent.SaveResults.sturdyRefPointerIndex <;>
      simp [Persistent.SaveResults.Reader.hasSturdyRef, isNull, hp]
  · have hv := b.builder.getPointerField_set_self 0 (some v) h
    have h0 := b.builder.getPointerField_set_self 0 (some 0) h
    constructor
    · simp [Persistent.SaveParams.Builder.hasSealFor, Persistent.SaveParams.Builder.setSealFor,
        Persistent.SaveParams.sealForPointerIndex, isNull, hv]
    · simp [Persistent.SaveParams.Builder.hasSealFor, Persistent.SaveParams.Builder.initSealFor,
        Persistent.SaveParams.sealForPointerIndex, isNull, h0]
  · have hv := b.builder.getPointerField_set_self 0 (some v) h
    have h0 := b.builder.getPointerField_set_self 0 (some 0) h
    constructor
    · simp [Persistent.SaveResults.Builder.hasSturdyRef,
        Persistent.SaveResults.Builder.setSturdyRef,
        Persistent.SaveResults.sturdyRefPointerIndex, isNull, hv]
    · simp [Persistent.SaveResults.Builder.hasSturdyRef,
        Persistent.SaveResults.Builder.initSturdyRef,
        Persistent.SaveResults.sturdyRefPointerIndex, isNull, h0]

/-- Witness for C5 at concrete inputs. -/
theorem c5_has_iff_nonnull_witness :
    0 < (Persistent.SaveParams.newBuilder ⟨"SR", "OW"⟩).builder.pointers.length
    ∧ ((Persistent.SaveParams.newBuilder ⟨"SR", "OW"⟩).setSealFor (some 5)).hasSealFor = true
    ∧ ((Persistent.SaveParams.newBuilder ⟨"SR", "OW"⟩).initSealFor).hasSealFor = true := by
  refine ⟨by decide, (c5_has_iff_nonnull.2.2.2.1 _ 5 (by decide)).1,
    (c5_has_iff_nonnull.2.2.2.1 _ 5 (by decide)).2⟩

/-- C6: generic rebinding is a pure relabeling: `asPersistentGeneric`
wraps the same underlying `StructReader` unchanged, and every field read
through one binding decodes identically to the same read through any
other binding. -/
theorem c6_generic_rebinding_identity (x y x' y' : String) :
    (∀ r : Persistent.SaveParams.Reader,
      (r.asPersistentGeneric x y).reader = r.reader
      ∧ (r.asPersistentGeneric x y).getSealFor = (r.asPersistentGeneric x' y').getSealFor
      ∧ (r.asPersistentGeneric x y).hasSealFor = (r.asPersistentGeneric x' y').hasSealFor)
    ∧ (∀ r : Persistent.SaveResults.Reader,
      (r.asPersistentGeneric x y).reader = r.reader
      ∧ (r.asPersistentGeneric x y).getSturdyRef
          = (r.asPersistentGeneric x' y').getSturdyRef
      ∧ (r.asPersistentGeneric x y).hasSturdyRef
          = (r.asPersistentGeneric x' y').hasSturdyRef) :=
  ⟨fun _ => ⟨rfl, rfl, rfl⟩, fun _ => ⟨rfl, rfl, rfl⟩⟩

/-- C7: on a builder whose `sturdyRef` field is set, `disownSturdyRef`
detaches the value leaving the slot null (so `hasSturdyRef` becomes
false), and adopting the returned orphan back restores the field to the
original value. -/
theorem c7_disown_adopt_identity (b : Persistent.SaveResults.Builder)
    (h : b.hasSturdyRef = true) :
    (b.disownSturdyRef).2.hasSturdyRef = false
    ∧ (b.disownSturdyRef).1 = b.getSturdyRef
    ∧ ((b.disownSturdyRef).2.adoptSturdyRef (b.disownSturdyRef).1).getSturdyRef
        = b.getSturdyRef
    ∧ (((b.disownSturdyRef).2.adoptSturdyRef
          (b.disownSturdyRef).1).asReader).getSturdyRef = (b.asReader).getSturdyRef := by
  obtain ⟨brand, d, ps⟩ := b
  cases ps with
  | nil =>
    exfalso
    simp [Persistent.SaveResults.Builder.hasSturdyRef, isNull,
      StructBuilder.getPointerField, List.getD] at h
  | cons a l =>
    refine ⟨?_, ?_, ?_, ?_⟩ <;>
      simp [Persistent.SaveResults.Builder.hasSturdyRef,
        Persistent.SaveResults.Builder.disownSturdyRef,
        Persistent.SaveResults.Builder.adoptSturdyRef,
        Persistent.SaveResults.Builder.getSturdyRef,
        Persistent.SaveResults.Builder.asReader, Persistent.SaveResults.Reader.getSturdyRef,
        StructBuilder.asReader, StructBuilder.getPointerField,
        StructBuilder.setPointerField, StructReader.getPointerField, isNull, List.getD,
        Persistent.SaveResults.sturdyRefPointerIndex]

/-- Witness for C7 at a concrete input. -/
theorem c7_disown_adopt_identity_witness :
    ((Persistent.SaveResults.newBuilder ⟨"SR", "OW"⟩).setSturdyRef
        (some 9)).hasSturdyRef = true
    ∧ (((Persistent.SaveResults.newBuilder ⟨"SR", "OW"⟩).setSturdyRef
        (some 9)).disownSturdyRef).2.hasSturdyRef = false
    ∧ ((((Persistent.SaveResults.newBuilder ⟨"SR", "OW"⟩).setSturdyRef
          (some 9)).disownSturdyRef).2.adoptSturdyRef
        (((Persistent.SaveResults.newBuilder ⟨"SR", "OW"⟩).setSturdyRef
          (some 9)).disownSturdyRef).1).getSturdyRef
        = ((Persistent.SaveResults.newBuilder ⟨"SR", "OW"⟩).setSturdyRef
            (some 9)).getSturdyRef := by
  refine ⟨by decide, (c7_disown_adopt_identity _ (by decide)).1,
    (c7_disown_adopt_identity _ (by decide)).2.2.1⟩

/-- C8: `Client::saveRequest` issues its call with interface ID
`0xc8cb212fcd9f5691` and method ID 0, exactly the pair that
`Server::dispatchCall` routes to the `save` handler. -/
theorem c8_client_server_dispatch_agreement (sizeHint : Option Nat)
    (s : Persistent.Server) (context : CallContext) :
    (Persistent.Client.saveRequest sizeHint).interfaceId = persistentInterfaceId
    ∧ (Persistent.Client.saveRequest sizeHint).methodId = 0
    ∧ s.dispatchCall (Persistent.Client.saveRequest sizeHint).interfaceId
        (Persistent.Client.saveRequest sizeHint).methodId context
        = ⟨s.save context, false, false⟩ := by
  refine ⟨rfl, rfl, ?_⟩
  simp [Persistent.Client.saveRequest, Persistent.newCall, Persistent.Server.dispatchCall,
    Persistent.Server.dispatchCallInternal, internalGetTypedContext]

/-- C9: the dispatch of method ID 0 (`save`) returns a
`DispatchCallResult` with both `isStreaming` and `allowCancellation`
false. -/
theorem c9_save_dispatch_flags (s : Persistent.Server) (context : CallContext) :
    (s.dispatchCallInternal 0 context).isStreaming = false
    ∧ (s.dispatchCallInternal 0 context).allowCancellation = false :=
  ⟨rfl, rfl⟩

/-- C10: every generated accessor of `SaveParams` and `SaveResults`
addresses pointer slot 0, inside the declared layout of 0 data words and
1 pointer word: the reader accessors depend only on the declared slots,
the builder mutators leave every slot outside the declared size
untouched, and the pipeline accessors address slot 0. -/
theorem c10_accessors_within_declared_layout :
    (Persistent.SaveParams.sealForPointerIndex < Persistent.SaveParams.pointerCount
      ∧ Persistent.SaveResults.sturdyRefPointerIndex < Persistent.SaveResults.pointerCount
      ∧ Persistent.SaveParams.dataWordCount = 0 ∧ Persistent.SaveParams.pointerCount = 1
      ∧ Persistent.SaveResults.dataWordCount = 0 ∧ Persistent.SaveResults.pointerCount = 1)
    ∧ (∀ r r' : Persistent.SaveParams.Reader,
      (∀ j < Persistent.SaveParams.pointerCount,
        r.reader.getPointerField j = r'.reader.getPointerField j) →
      r.hasSealFor = r'.hasSealFor ∧ r.getSealFor = r'.getSealFor)
    ∧ (∀ r r' : Persistent.SaveResults.Reader,
      (∀ j < Persistent.SaveResults.pointerCount,
        r.reader.getPointerField j = r'.reader.getPointerField j) →
      r.hasSturdyRef = r'.hasSturdyRef ∧ r.getSturdyRef = r'.getSturdyRef)
    ∧ (∀ (b : Persistent.SaveParams.Builder) (v : PointerSlot) (j : Nat),
      Persistent.SaveParams.pointerCount ≤ j →
      (b.setSealFor v).builder.getPointerField j = b.builder.getPointerField j
      ∧ (b.initSealFor).builder.getPointerField j = b.builder.getPointerField j
      ∧ (b.adoptSealFor v).builder.getPointerField j = b.builder.getPointerField j
      ∧ (b.disownSealFor).2.builder.getPointerField j = b.builder.getPointerField j)
    ∧ (∀ (b : Persistent.SaveResults.Builder) (v : PointerSlot) (j : Nat),
      Persistent.SaveResults.pointerCount ≤ j →
      (b.setSturdyRef v).builder.getPointerField j = b.builder.getPointerField j
      ∧ (b.initSturdyRef).builder.getPointerField j = b.builder.getPointerField j
      ∧ (b.adoptSturdyRef v).builder.getPointerField j = b.builder.getPointerField j
      ∧ (b.disownSturdyRef).2.builder.getPointerField j = b.builder.getPointerField j)
    ∧ (∀ p : Persistent.SaveParams.Pipeline,
      p.getSealFor = p.typeless.getPointerField Persistent.SaveParams.sealForPointerIndex)
    ∧ (∀ p : Persistent.SaveResults.Pipeline,
      p.getSturdyRef
        = p.typeless.getPointerField Persistent.SaveResults.sturdyRefPointerIndex) := by
  have hne : ∀ j : Nat, 1 ≤ j → (0 : Nat) ≠ j := by omega
  refine ⟨by decide, fun r r' h => ?_, fun r r' h => ?_, fun b v j hj => ?_,
    fun b v j hj => ?_, fun p => rfl, fun p => rfl⟩
  · have h0 := h 0 (by decide)
    exact ⟨by simp [Persistent.SaveParams.Reader.hasSealFor,
        Persistent.SaveParams.sealForPointerIndex, h0],
      by simp [Persistent.SaveParams.Reader.getSealFor,
        Persistent.SaveParams.sealForPointerIndex, h0]⟩
  · have h0 := h 0 (by decide)
    exact ⟨by simp [Persistent.SaveResults.Reader.hasSturdyRef,
        Persistent.SaveResults.sturdyRefPointerIndex, h0],
      by simp [Persistent.SaveResults.Reader.getSturdyRef,
        Persistent.SaveResults.sturdyRefPointerIndex, h0]⟩
  · have hj' : (0 : Nat) ≠ j := hne j hj
    exact ⟨b.builder.getPointerField_set_ne _ _ v hj',
      b.builder.getPointerField_set_ne _ _ (some 0) hj',
      b.builder.getPointerField_set_ne _ _ v hj',
      b.builder.getPointerField_set_ne _ _ none hj'⟩
  · have hj' : (0 : Nat) ≠ j := hne j hj
    exact ⟨b.builder.getPointerField_set_ne _ _ v hj',
      b.builder.getPointerField_set_ne _ _ (some 0) hj',
      b.builder.getPointerField_set_ne _ _ v hj',
      b.builder.getPointerField_set_ne _ _ none hj'⟩

/-- Witness for C10 at concrete inputs. -/
theorem c10_accessors_within_declared_layout_witness :
    Persistent.SaveResults.pointerCount ≤ 1
    ∧ ((Persistent.SaveResults.newBuilder ⟨"SR", "OW"⟩).setSturdyRef
          (some 3)).builder.getPointerField 1
        = (Persistent.SaveResults.newBuilder ⟨"SR", "OW"⟩).builder.getPointerField 1 :=
  ⟨by decide,
    (c10_accessors_within_declared_layout.2.2.2.2.1 _ (some 3) 1 (by decide)).1⟩

end Capnp
